import Mathlib

/-!
Verification of the AInvestor transaction-categorization engine
(src/invoice-extractor/services.py, src/invoice-extractor/schemas.py,
src/main.py) against its specification.

The Python code is shallowly embedded: the rule/catalog snapshot fetched from
Supabase and the two OpenAI calls are external collaborators and become
function parameters; Python dicts become association lists with last-insertion-
wins lookup; Python float `valor` is never used arithmetically by the
categorization logic and is modelled as an integer.
-/

namespace AInvestor

/-- Row of the `transaction_category_rules` table as services.py reads it.
Missing dict keys are folded into the field types exactly as the code reads
them with `.get`: `normalized_pattern` defaults to `""`, the two counters
default to `0`, the template ids default to `None` (here `none`). -/
structure Rule where
  normalized_pattern : String
  category_template_id : Option String
  subcategory_template_id : Option String
  confirmed_count : Nat
  usage_count : Nat
deriving DecidableEq

/-- Row of `expense_category_templates`; services.py reads `id`, `name`, `type`. -/
structure CategoryTemplate where
  id : String
  name : String
  type : String
deriving DecidableEq

/-- Row of `expense_subcategory_templates`; services.py reads `id`, `name` and
`category_template_id` (the latter two with `.get`, hence the optional link). -/
structure SubcategoryTemplate where
  id : String
  name : String
  category_template_id : Option String
deriving DecidableEq

/-- schemas.Transacao. -/
structure Transacao where
  data : String
  descricao : String
  valor : Int
  moeda : String
deriving DecidableEq

/-- schemas.TransacaoCategorizada. -/
structure TransacaoCategorizada where
  date : String
  description : String
  amount : Int
  category_name : Option String
  category_id : Option String
  subcategory_name : Option String
  subcategory_id : Option String
deriving DecidableEq

/-- Modelled from the spec: `CategorizacaoLLM` is imported by services.py from
schemas but is not defined under src/.  Spec section 3 "Suggestion": a batch
index plus nullable category and subcategory names; the field names follow the
accesses in services.py (`cat.index`, `categoria_llm.categoria`,
`categoria_llm.subcategoria`). -/
structure CategorizacaoLLM where
  index : Nat
  categoria : Option String
  subcategoria : Option String
deriving DecidableEq

/-- Modelled from the spec: `ResultadoCategorizacaoBatch` is imported by
services.py from schemas but is not defined under src/; services.py accesses
`batch_result.transacoes`, one suggestion per submitted transaction. -/
structure ResultadoCategorizacaoBatch where
  transacoes : List CategorizacaoLLM
deriving DecidableEq

/-- schemas.ResultadoFatura (`total_fatura`, a float, modelled as an integer;
it is never used by the categorization logic). -/
structure ResultadoFatura where
  banco_emissor : Option String
  data_vencimento : Option String
  total_fatura : Option Int
  transacoes : List Transacao
deriving DecidableEq

/-- A Python dict built by successive insertions, as an association list in
insertion order: lookup returns the value of the LAST pair whose key equals
`k`, since a later insertion overwrites an earlier one. -/
def dget {κ α : Type} [DecidableEq κ] : List (κ × α) → κ → Option α
  | [], _ => none
  | p :: ps, k =>
    match dget ps k with
    | some v => some v
    | none => if p.1 = k then some p.2 else none

/-- Python truthiness of an optional string (`if x:`): `None` and `""` are falsy. -/
def truthyO : Option String → Bool
  | none => false
  | some s => decide (s ≠ "")

/-- Python `pat in s` for strings: substring test over code points. -/
def strContains (s pat : String) : Bool :=
  decide (List.IsInfix pat.data s.data)

/-- Python `str.lower()` on one character.  Only the ASCII range matters for
the catalog and rule patterns; this is the same ASCII mapping the Lean core
`Char.toLower` performs, written out so that it reduces structurally. -/
def pyCharLower (c : Char) : Char :=
  if 65 ≤ c.toNat ∧ c.toNat ≤ 90 then Char.ofNat (c.toNat + 32) else c

/-- Python `str.lower()` over the code points of a string. -/
def pyLower (s : String) : String :=
  ⟨s.data.map pyCharLower⟩

/-- Python `str.strip()`: drop leading and trailing whitespace. -/
def trimChars (l : List Char) : List Char :=
  ((l.dropWhile Char.isWhitespace).reverse.dropWhile Char.isWhitespace).reverse

/-- One step of Python `str.split()` read from the right: whitespace closes the
word being collected, any other character extends it. -/
def splitStep (c : Char) (acc : List (List Char) × List Char) :
    List (List Char) × List Char :=
  if c.isWhitespace then
    (if acc.2.isEmpty then acc.1 else acc.2 :: acc.1, [])
  else (acc.1, c :: acc.2)

/-- Python `str.split()` with no argument: the whitespace-separated words. -/
def pyWords (l : List Char) : List (List Char) :=
  let r := l.foldr splitStep ([], [])
  if r.2.isEmpty then r.1 else r.2 :: r.1

/-- Python `" ".join(words)` over code points. -/
def joinWords : List (List Char) → List Char
  | [] => []
  | [w] => w
  | w :: ws => w ++ (' ' :: joinWords ws)

/-- services.py `_normalizar_texto` (lines 178-180):
`" ".join(texto.lower().strip().split())` — lowercase, trim, collapse
whitespace runs to single spaces. -/
def normalizar_texto (texto : String) : String :=
  ⟨joinWords (pyWords (trimChars (texto.data.map pyCharLower)))⟩

/-- The per-rule match condition used both when partitioning (services.py lines
125-129) and when collecting matching rules (lines 294-298): a non-empty
`normalized_pattern` occurring in the normalized description. -/
def ruleMatches (descN : String) (r : Rule) : Bool :=
  decide (r.normalized_pattern ≠ "") && strContains descN r.normalized_pattern

/-- services.py lines 294-298: every rule matching the normalized description,
in original list order. -/
def matchingRules (rules : List Rule) (descN : String) : List Rule :=
  rules.filter (ruleMatches descN)

/-- services.py lines 123-129: whether some rule matches (loop with early break). -/
def temRegra (rules : List Rule) (descN : String) : Bool :=
  rules.any (ruleMatches descN)

/-- The sort key of services.py lines 301-308:
`(confirmed_count, usage_count, len(normalized_pattern))`. -/
def ruleKey (r : Rule) : Nat × Nat × Nat :=
  (r.confirmed_count, r.usage_count, r.normalized_pattern.length)

/-- Strict lexicographic order on sort keys — Python tuple `<`. -/
def keyLt (a b : Nat × Nat × Nat) : Prop :=
  a.1 < b.1 ∨ (a.1 = b.1 ∧ (a.2.1 < b.2.1 ∨ (a.2.1 = b.2.1 ∧ a.2.2 < b.2.2)))

instance (a b : Nat × Nat × Nat) : Decidable (keyLt a b) := by
  unfold keyLt; exact inferInstance

/-- One insertion step of a stable descending sort: `r` stays before a later
element whenever its key is not strictly smaller, so among equal keys the
earlier element of the original list comes first. -/
def insertRuleDesc (r : Rule) : List Rule → List Rule
  | [] => [r]
  | x :: xs =>
    if keyLt (ruleKey r) (ruleKey x) then x :: insertRuleDesc r xs
    else r :: x :: xs

/-- services.py lines 300-308: `matching_rules.sort(key=..., reverse=True)`.
Python sorts stably; a stable sort is determined by its order and stability,
and is modelled here by stable insertion sort. -/
def sortRulesDesc : List Rule → List Rule
  | [] => []
  | x :: xs => insertRuleDesc x (sortRulesDesc xs)

/-- Spec section 4.3 wording, for comparison with the code: the earliest
maximal rule under the key order (a later rule replaces the current best only
when its key is strictly greater, so ties go to the earlier rule). -/
def bestOf : List Rule → Option Rule
  | [] => none
  | x :: xs =>
    match bestOf xs with
    | none => some x
    | some b => if keyLt (ruleKey x) (ruleKey b) then some b else some x

/-- services.py lines 291-318: the rule the code applies — the head of the
stably sorted matching rules. -/
def findBestRule (descricao : String) (rules : List Rule) : Option Rule :=
  (sortRulesDesc (matchingRules rules (normalizar_texto descricao))).head?

/-- The four output fields initialized to `None` at services.py lines 310-314. -/
structure CamposCategoria where
  category_id : Option String := none
  category_name : Option String := none
  subcategory_id : Option String := none
  subcategory_name : Option String := none
deriving DecidableEq

/-- services.py lines 319, 322-325: `cat_id = best_rule.get("category_template_id")`
followed by `if cat_id and cat_id in category_by_id:` — the resolved
`(category_id, category_name)` pair, `(None, None)` when the id is falsy or
absent from the dict. -/
def ruleCategoryFields (best_rule : Rule)
    (category_by_id : List (String × CategoryTemplate)) : Option String × Option String :=
  match best_rule.category_template_id with
  | some cat_id =>
    if cat_id = "" then (none, none) else
      match dget category_by_id cat_id with
      | some category => (some category.id, some category.name)
      | none => (none, none)
  | none => (none, none)

/-- services.py lines 320, 327-330: the resolved `(subcategory_id,
subcategory_name)` pair from `subcategory_template_id`, independent of the
category block. -/
def ruleSubcategoryFields (best_rule : Rule)
    (subcategory_by_id : List (String × SubcategoryTemplate)) :
    Option String × Option String :=
  match best_rule.subcategory_template_id with
  | some subcat_id =>
    if subcat_id = "" then (none, none) else
      match dget subcategory_by_id subcat_id with
      | some subcategory => (some subcategory.id, some subcategory.name)
      | none => (none, none)
  | none => (none, none)

/-- services.py lines 316-330 (rule branch): the two independent blocks above,
assembled. -/
def ruleFields (best_rule : Rule) (category_by_id : List (String × CategoryTemplate))
    (subcategory_by_id : List (String × SubcategoryTemplate)) : CamposCategoria :=
  { category_id := (ruleCategoryFields best_rule category_by_id).1,
    category_name := (ruleCategoryFields best_rule category_by_id).2,
    subcategory_id := (ruleSubcategoryFields best_rule subcategory_by_id).1,
    subcategory_name := (ruleSubcategoryFields best_rule subcategory_by_id).2 }

/-- services.py lines 332-360 (suggestion branch): look the LLM suggestion up
by original index; match its category name case-insensitively via
`category_by_name`; then match its subcategory name case-insensitively among
the subcategories whose `category_template_id` equals the matched category id. -/
def suggestionFields (transacao_idx : Nat)
    (categorizacoes_llm : List (Nat × CategorizacaoLLM))
    (category_by_name : List (String × CategoryTemplate))
    (subcategories : List SubcategoryTemplate) : CamposCategoria :=
  match dget categorizacoes_llm transacao_idx with
  | none => {}
  | some categoria_llm =>
    match categoria_llm.categoria with
    | none => {}
    | some cat_nome =>
      if cat_nome = "" then {} else
        match dget category_by_name (pyLower cat_nome) with
        | none => {}
        | some category =>
          match categoria_llm.subcategoria with
          | none =>
            { category_id := some category.id, category_name := some category.name }
          | some subcat_nome =>
            if subcat_nome = "" then
              { category_id := some category.id, category_name := some category.name }
            else
              match (subcategories.filter
                  (fun sub => decide (sub.category_template_id = some category.id))).find?
                  (fun sub => decide (pyLower sub.name = pyLower subcat_nome)) with
              | some matching_subcat =>
                { category_id := some category.id, category_name := some category.name,
                  subcategory_id := some matching_subcat.id,
                  subcategory_name := some matching_subcat.name }
              | none =>
                { category_id := some category.id, category_name := some category.name }

/-- services.py lines 362-369 (PASSO 3, reached only in the no-rule branch):
apply the default category when `category_id` is falsy and, independently, the
default subcategory when `subcategory_id` is falsy. -/
def defaultFields (f : CamposCategoria) (default_category : Option CategoryTemplate)
    (default_subcategory : Option SubcategoryTemplate) : CamposCategoria :=
  let g :=
    if truthyO f.category_id then f else
      match default_category with
      | some dc => { f with category_id := some dc.id, category_name := some dc.name }
      | none => f
  if truthyO g.subcategory_id then g else
    match default_subcategory with
    | some ds => { g with subcategory_id := some ds.id, subcategory_name := some ds.name }
    | none => g

/-- services.py lines 371-379: assemble the output record. -/
def mkTransacaoCategorizada (transacao : Transacao) (f : CamposCategoria) :
    TransacaoCategorizada :=
  { date := transacao.data, description := transacao.descricao, amount := transacao.valor,
    category_name := f.category_name, category_id := f.category_id,
    subcategory_name := f.subcategory_name, subcategory_id := f.subcategory_id }

/-- services.py `_categorizar_transacao_individual` (lines 265-379): rule branch
when some rule matches (the sorted list is checked for emptiness), otherwise
suggestion branch followed by the default fallback. -/
def categorizar_transacao_individual (transacao : Transacao) (transacao_idx : Nat)
    (rules : List Rule)
    (category_by_id : List (String × CategoryTemplate))
    (subcategory_by_id : List (String × SubcategoryTemplate))
    (category_by_name : List (String × CategoryTemplate))
    (subcategory_by_name : List (String × SubcategoryTemplate))
    (default_category : Option CategoryTemplate)
    (default_subcategory : Option SubcategoryTemplate)
    (categorizacoes_llm : List (Nat × CategorizacaoLLM))
    (subcategories : List SubcategoryTemplate) : TransacaoCategorizada :=
  match sortRulesDesc (matchingRules rules (normalizar_texto transacao.descricao)) with
  | best_rule :: _ =>
    mkTransacaoCategorizada transacao (ruleFields best_rule category_by_id subcategory_by_id)
  | [] =>
    mkTransacaoCategorizada transacao
      (defaultFields
        (suggestionFields transacao_idx categorizacoes_llm category_by_name subcategories)
        default_category default_subcategory)

/-- services.py line 90: `{cat["id"]: cat for cat in categories}`. -/
def category_by_id (categories : List CategoryTemplate) : List (String × CategoryTemplate) :=
  categories.map (fun cat => (cat.id, cat))

/-- services.py line 91: `{sub["id"]: sub for sub in subcategories}`. -/
def subcategory_by_id (subcategories : List SubcategoryTemplate) :
    List (String × SubcategoryTemplate) :=
  subcategories.map (fun sub => (sub.id, sub))

/-- services.py line 94: `{cat["name"].lower(): cat for cat in categories}`. -/
def category_by_name (categories : List CategoryTemplate) : List (String × CategoryTemplate) :=
  categories.map (fun cat => (pyLower cat.name, cat))

/-- services.py line 95: `{sub["name"].lower(): sub for sub in subcategories}`. -/
def subcategory_by_name (subcategories : List SubcategoryTemplate) :
    List (String × SubcategoryTemplate) :=
  subcategories.map (fun sub => (pyLower sub.name, sub))

/-- services.py lines 98-101: the first category named "Outros" of type
"expense", if any. -/
def default_category (categories : List CategoryTemplate) : Option CategoryTemplate :=
  categories.find? (fun cat => decide (cat.name = "Outros" ∧ cat.type = "expense"))

/-- services.py lines 104-111: the first subcategory named "sem categoria"
under the default category, if that category exists. -/
def default_subcategory (categories : List CategoryTemplate)
    (subcategories : List SubcategoryTemplate) : Option SubcategoryTemplate :=
  match default_category categories with
  | some dc =>
    subcategories.find?
      (fun sub => decide (sub.name = "sem categoria" ∧ sub.category_template_id = some dc.id))
  | none => none

/-- services.py lines 117-134: partition the enumerated transactions by
whether some user rule matches, preserving order and original index
(`transacoes_com_regra`, `transacoes_sem_regra`). -/
def partitionTransacoes (transacoes : List Transacao) (rules : List Rule) :
    List (Nat × Transacao) × List (Nat × Transacao) :=
  transacoes.enum.foldl
    (fun acc p =>
      if temRegra rules (normalizar_texto p.2.descricao) then (acc.1 ++ [p], acc.2)
      else (acc.1, acc.2 ++ [p]))
    ([], [])

/-- Python `list.index(a)`: position of the first element equal to `a`. -/
def pyIndex {α : Type} [DecidableEq α] (l : List α) (a : α) : Nat :=
  l.findIdx (fun x => decide (x = a))

/-- services.py lines 146-153: the dict from original transaction index to the
first suggestion whose batch index equals the position of that entry in
`transacoes_sem_regra` (the code recomputes the position with `list.index`). -/
def buildCategorizacoesLlm (transacoes_sem_regra : List (Nat × Transacao))
    (batch_result : ResultadoCategorizacaoBatch) : List (Nat × CategorizacaoLLM) :=
  transacoes_sem_regra.foldl
    (fun dict p =>
      match batch_result.transacoes.find?
          (fun cat => decide (cat.index = pyIndex transacoes_sem_regra p)) with
      | some cat => dict ++ [(p.1, cat)]
      | none => dict)
    []

/-- services.py lines 136-155: the single guarded suggestion-service call.
Returns the suggestion dict together with the number of service invocations
made (the code has exactly one call site, inside `if transacoes_sem_regra:`);
the `try/except` turns any failure (`Except.error`) into an empty dict. -/
def llmCallOutcome (transacoes_sem_regra : List (Nat × Transacao))
    (llmService : List Transacao → Except String ResultadoCategorizacaoBatch) :
    List (Nat × CategorizacaoLLM) × Nat :=
  if transacoes_sem_regra.isEmpty then ([], 0)
  else
    match llmService (transacoes_sem_regra.map Prod.snd) with
    | Except.ok batch_result => (buildCategorizacoesLlm transacoes_sem_regra batch_result, 1)
    | Except.error _ => ([], 1)

/-- Observable outcome of one call of services.py `categorizar_transacoes`. -/
structure CategorizacaoRun where
  resultado : List TransacaoCategorizada
  categorizacoes_llm : List (Nat × CategorizacaoLLM)
  llmCalls : Nat
deriving DecidableEq

/-- services.py `categorizar_transacoes` (lines 47-175).  The Supabase queries
are external: the rule/catalog snapshot is taken as input.  The one batched
LLM call `_categorizar_batch_com_llm` is the function parameter `llmService`,
applied to the without-rule transactions in partition order. -/
def categorizar_transacoes (transacoes : List Transacao) (rules : List Rule)
    (categories : List CategoryTemplate) (subcategories : List SubcategoryTemplate)
    (llmService : List Transacao → Except String ResultadoCategorizacaoBatch) :
    CategorizacaoRun :=
  { resultado :=
      transacoes.enum.map
        (fun p => categorizar_transacao_individual p.2 p.1 rules
          (category_by_id categories) (subcategory_by_id subcategories)
          (category_by_name categories) (subcategory_by_name subcategories)
          (default_category categories) (default_subcategory categories subcategories)
          (llmCallOutcome (partitionTransacoes transacoes rules).2 llmService).1
          subcategories),
    categorizacoes_llm := (llmCallOutcome (partitionTransacoes transacoes rules).2 llmService).1,
    llmCalls := (llmCallOutcome (partitionTransacoes transacoes rules).2 llmService).2 }

/-! ## Model of the HTTP endpoints (src/main.py)

The transport prefix of each endpoint (multipart reading, base64 decoding,
environment validation) is external and abstracted as parameters; what is
modelled exactly is the body of each `try` block from the 50-character text
check onward, including the keyword arguments each endpoint passes to
`categorizar_transacoes` and the Python calling convention that a call
missing a required parameter raises `TypeError`, caught by the blanket
`except Exception` and converted to a generic 500. -/

/-- Outcome of one request: either the categorized list or an HTTP error. -/
inductive EndpointResult where
  | ok (transacoes : List TransacaoCategorizada)
  | erro (status : Nat) (detail : String)
deriving DecidableEq

/-- The parameters of services.py `categorizar_transacoes` (lines 47-53); all
five are required (none has a default). -/
def categorizar_transacoes_params : List String :=
  ["transacoes", "user_uuid", "supabase_url", "supabase_key", "openai_api_key"]

/-- The keyword arguments main.py passes at lines 67-72 (`/extrair`). -/
def chamada_extrair_kwargs : List String :=
  ["transacoes", "user_uuid", "supabase_url", "supabase_key"]

/-- The keyword arguments main.py passes at lines 135-140 (`/extrair_base64`). -/
def chamada_extrair_base64_kwargs : List String :=
  ["transacoes", "user_uuid", "supabase_url", "supabase_key"]

/-- Required parameters of `categorizar_transacoes` that a call site does not
supply. -/
def missing_args (kwargs : List String) : List String :=
  categorizar_transacoes_params.filter (fun p => decide (¬ kwargs.contains p))

/-- Python call semantics for `categorizar_transacoes(...)`: a call supplying
every required parameter runs the function; one missing a required parameter
raises `TypeError` before the body runs (`Except.error`). -/
def call_categorizar_transacoes (kwargs : List String)
    (run : Unit → List TransacaoCategorizada) : Except String (List TransacaoCategorizada) :=
  if missing_args kwargs = [] then Except.ok (run ())
  else
    Except.error
      ("categorizar_transacoes() missing required arguments: "
        ++ String.intercalate ", " (missing_args kwargs))

/-- main.py `extrair_transacoes` (lines 17-80), from inside the `try` block:
`texto_pdf` is the extracted text, `resultado_gpt` the outcome of
`processar_fatura_com_gpt`, and `run` stands for the body of
`categorizar_transacoes` (never reached when the call itself raises).  An
`HTTPException` is re-raised as is; any other exception becomes a generic 500. -/
def extrair_transacoes_handler (texto_pdf : String)
    (resultado_gpt : Except String ResultadoFatura)
    (run : Unit → List TransacaoCategorizada) : EndpointResult :=
  if texto_pdf.length < 50 then
    EndpointResult.erro 422
      "Não foi possível ler texto do PDF. Ele pode ser uma imagem (scaneada)."
  else
    match resultado_gpt with
    | Except.error e => EndpointResult.erro 500 ("Erro no processamento: " ++ e)
    | Except.ok _resultado =>
      match call_categorizar_transacoes chamada_extrair_kwargs run with
      | Except.ok ts => EndpointResult.ok ts
      | Except.error e => EndpointResult.erro 500 ("Erro no processamento: " ++ e)

/-- main.py `extrair_transacoes_base64` (lines 83-147): the base64 decoding and
PDF-signature validation are abstracted as the booleans `decode_ok` and
`is_pdf`; the rest mirrors `extrair_transacoes_handler` with the call site of
lines 135-140. -/
def extrair_transacoes_base64_handler (decode_ok : Bool) (is_pdf : Bool)
    (texto_pdf : String) (resultado_gpt : Except String ResultadoFatura)
    (run : Unit → List TransacaoCategorizada) : EndpointResult :=
  if !decode_ok then EndpointResult.erro 400 "pdf_base64 inválido."
  else if !is_pdf then
    EndpointResult.erro 400 "O conteúdo enviado não parece ser um PDF válido."
  else if texto_pdf.length < 50 then
    EndpointResult.erro 422
      "Não foi possível ler texto do PDF. Ele pode ser uma imagem (scaneada)."
  else
    match resultado_gpt with
    | Except.error e => EndpointResult.erro 500 ("Erro no processamento: " ++ e)
    | Except.ok _resultado =>
      match call_categorizar_transacoes chamada_extrair_base64_kwargs run with
      | Except.ok ts => EndpointResult.ok ts
      | Except.error e => EndpointResult.erro 500 ("Erro no processamento: " ++ e)

/-! ## Concrete inputs used by counterexamples and witnesses -/

/-- Catalog with the default category "Outros" and a second category
"Alimentação". -/
def exCats : List CategoryTemplate :=
  [{ id := "c-out", name := "Outros", type := "expense" },
   { id := "c-ali", name := "Alimentação", type := "expense" }]

/-- The default subcategory "sem categoria", belonging to "Outros". -/
def exSubs : List SubcategoryTemplate :=
  [{ id := "s-sem", name := "sem categoria", category_template_id := some "c-out" }]

/-- One transaction with no matching rule. -/
def exTxs : List Transacao :=
  [{ data := "2024-01-01", descricao := "ifood", valor := 30, moeda := "BRL" }]

/-- Suggestion service answering "Alimentação" with no subcategory for the
single batch entry. -/
def exSvc : List Transacao → Except String ResultadoCategorizacaoBatch :=
  fun _ => Except.ok { transacoes := [{ index := 0, categoria := some "Alimentação", subcategoria := none }] }

/-- A failing suggestion service. -/
def exSvcErr : List Transacao → Except String ResultadoCategorizacaoBatch :=
  fun _ => Except.error "timeout"

/-- Rules for the C2 witness: both match "uber trip 123"; keys
(2,5,4) for the short pattern and (2,5,10) for the long one. -/
def exRuleShort : Rule :=
  { normalized_pattern := "uber", category_template_id := some "c-out",
    subcategory_template_id := none, confirmed_count := 2, usage_count := 5 }

def exRuleLong : Rule :=
  { normalized_pattern := "uber trip ", category_template_id := some "c-ali",
    subcategory_template_id := none, confirmed_count := 2, usage_count := 5 }

/-- Keys (3,0,4) and (1,99,4): confirmed_count dominates usage_count. -/
def exRuleConf : Rule :=
  { normalized_pattern := "trip", category_template_id := some "c-out",
    subcategory_template_id := none, confirmed_count := 3, usage_count := 0 }

def exRuleUsed : Rule :=
  { normalized_pattern := "uber", category_template_id := some "c-ali",
    subcategory_template_id := none, confirmed_count := 1, usage_count := 99 }

/-- A transaction matched by the uber rules. -/
def uberTx : Transacao :=
  { data := "2024-01-02", descricao := "UBER Trip 123", valor := 25, moeda := "BRL" }

/-- A batch answer carrying one suggestion for local index 0. -/
def exBatch : ResultadoCategorizacaoBatch :=
  { transacoes := [{ index := 0, categoria := some "Alimentação", subcategoria := none }] }

/-- The suggestion dict produced for `exTxs` by `exSvc`. -/
def exLlmDict : List (Nat × CategorizacaoLLM) :=
  [(0, { index := 0, categoria := some "Alimentação", subcategoria := none })]

/-- A subcategory that belongs to "Alimentação", used to show that a suggestion
naming it under "Outros" is rejected. -/
def exSubsCross : List SubcategoryTemplate :=
  [{ id := "s-rest", name := "Restaurantes", category_template_id := some "c-ali" }]

/-- A suggestion whose category is "Outros" but whose subcategory name
"Restaurantes" belongs to "Alimentação" in the catalog. -/
def exLlmCross : List (Nat × CategorizacaoLLM) :=
  [(0, { index := 0, categoria := some "Outros", subcategoria := some "Restaurantes" })]

/-- Extracted text of length 50 (the minimum the handlers accept). -/
def exTexto : String := "01234567890123456789012345678901234567890123456789"

/-- A structured extraction result with no transactions. -/
def exFatura : ResultadoFatura :=
  { banco_emissor := none, data_vencimento := none, total_fatura := none, transacoes := [] }

/-! ## Helper lemmas: the rule order and the stable sort -/

theorem keyLt_trans {a b c : Nat × Nat × Nat} (h1 : keyLt a b) (h2 : keyLt b c) :
    keyLt a c := by
  obtain ⟨a1, a2, a3⟩ := a; obtain ⟨b1, b2, b3⟩ := b; obtain ⟨c1, c2, c3⟩ := c
  unfold keyLt at *; simp only [] at *; omega

theorem keyLt_of_lt_of_not_lt {a b c : Nat × Nat × Nat} (h1 : keyLt a c)
    (h2 : ¬ keyLt b c) : keyLt a b := by
  obtain ⟨a1, a2, a3⟩ := a; obtain ⟨b1, b2, b3⟩ := b; obtain ⟨c1, c2, c3⟩ := c
  unfold keyLt at *; simp only [] at *; omega

theorem head?_insertRuleDesc (r : Rule) (l : List Rule) :
    (insertRuleDesc r l).head? =
      some (match l.head? with
        | none => r
        | some x => if keyLt (ruleKey r) (ruleKey x) then x else r) := by
  cases l with
  | nil => rfl
  | cons x xs =>
    unfold insertRuleDesc
    by_cases h : keyLt (ruleKey r) (ruleKey x) <;> simp [h]

theorem bestOf_cons (x : Rule) (xs : List Rule) :
    bestOf (x :: xs) =
      match bestOf xs with
      | none => some x
      | some b => if keyLt (ruleKey x) (ruleKey b) then some b else some x := rfl

theorem head?_sortRulesDesc (l : List Rule) : (sortRulesDesc l).head? = bestOf l := by
  induction l with
  | nil => rfl
  | cons x xs ih =>
    show (insertRuleDesc x (sortRulesDesc xs)).head? = bestOf (x :: xs)
    rw [head?_insertRuleDesc, ih, bestOf_cons]
    cases hb : bestOf xs with
    | none => simp
    | some b => by_cases h : keyLt (ruleKey x) (ruleKey b) <;> simp [h]

theorem bestOf_eq_none_iff (l : List Rule) : bestOf l = none ↔ l = [] := by
  cases l with
  | nil => simp [bestOf]
  | cons x xs =>
    simp only [bestOf]
    cases hb : bestOf xs with
    | none => simp
    | some b => by_cases h : keyLt (ruleKey x) (ruleKey b) <;> simp [h]

theorem bestOf_spec (l : List Rule) : ∀ r : Rule, bestOf l = some r →
    ∃ l₁ l₂, l = l₁ ++ r :: l₂
      ∧ (∀ x ∈ l₁, keyLt (ruleKey x) (ruleKey r))
      ∧ (∀ x ∈ l₂, ¬ keyLt (ruleKey r) (ruleKey x)) := by
  induction l with
  | nil => intro r h; simp [bestOf] at h
  | cons x xs ih =>
    intro r h
    rw [bestOf_cons] at h
    cases hb : bestOf xs with
    | none =>
      rw [hb] at h
      have hxs : xs = [] := (bestOf_eq_none_iff xs).mp hb
      obtain rfl : x = r := by simpa using h
      exact ⟨[], [], by simp [hxs], by simp, by simp [hxs]⟩
    | some b =>
      rw [hb] at h
      by_cases hlt : keyLt (ruleKey x) (ruleKey b)
      · obtain rfl : b = r := by simpa [hlt] using h
        obtain ⟨l₁, l₂, he, h1, h2⟩ := ih b hb
        exact ⟨x :: l₁, l₂, by simp [he], by
          intro y hy
          rcases List.mem_cons.mp hy with rfl | hy
          · exact hlt
          · exact h1 y hy, h2⟩
      · obtain rfl : x = r := by simpa [hlt] using h
        obtain ⟨l₁, l₂, he, h1, h2⟩ := ih b hb
        refine ⟨[], xs, by simp, by simp, ?_⟩
        intro y hy
        rw [he] at hy
        rcases List.mem_append.mp hy with hy | hy
        · intro hxy
          exact hlt (keyLt_trans hxy (h1 y hy))
        · rcases List.mem_cons.mp hy with rfl | hy
          · exact hlt
          · intro hxy
            exact hlt (keyLt_of_lt_of_not_lt hxy (h2 y hy))

/-! ## Helper lemmas: dict lookup -/

theorem dget_cons_ne {κ α : Type} [DecidableEq κ] (p : κ × α) (ps : List (κ × α)) (k : κ)
    (h : p.1 ≠ k) : dget (p :: ps) k = dget ps k := by
  show (match dget ps k with
    | some v => some v
    | none => if p.1 = k then some p.2 else none) = dget ps k
  cases hd : dget ps k <;> simp [h]

theorem dget_eq_none {κ α : Type} [DecidableEq κ] {l : List (κ × α)} {k : κ}
    (h : ∀ p ∈ l, p.1 ≠ k) : dget l k = none := by
  induction l with
  | nil => rfl
  | cons p ps ih =>
    rw [dget_cons_ne p ps k (h p (List.mem_cons_self p ps))]
    exact ih (fun q hq => h q (List.mem_cons_of_mem p hq))

theorem dget_graph {κ β : Type} [DecidableEq κ] (key : β → κ) (l : List β) (k : κ) (v : β)
    (h : dget (l.map (fun c => (key c, c))) k = some v) : v ∈ l ∧ key v = k := by
  induction l with
  | nil => simp [dget] at h
  | cons c cs ih =>
    rw [List.map_cons] at h
    rw [show dget ((key c, c) :: cs.map (fun c => (key c, c))) k =
        (match dget (cs.map (fun c => (key c, c))) k with
          | some v => some v
          | none => if key c = k then some c else none) from rfl] at h
    cases hd : dget (cs.map (fun c => (key c, c))) k with
    | some w =>
      rw [hd] at h
      obtain rfl : w = v := by simpa using h
      obtain ⟨hm, hk⟩ := ih hd
      exact ⟨List.mem_cons_of_mem c hm, hk⟩
    | none =>
      rw [hd] at h
      by_cases hk : key c = k
      · obtain rfl : c = v := by simpa [hk] using h
        exact ⟨List.mem_cons_self c cs, hk⟩
      · simp [hk] at h

/-! ## Helper lemmas: the partition and the suggestion dict -/

theorem foldl_partition {β : Type} (c : β → Bool) (xs : List β) :
    ∀ acc : List β × List β,
      xs.foldl (fun acc p => if c p then (acc.1 ++ [p], acc.2) else (acc.1, acc.2 ++ [p])) acc
        = (acc.1 ++ xs.filter c, acc.2 ++ xs.filter (fun p => !c p)) := by
  induction xs with
  | nil => intro acc; simp
  | cons x xs ih =>
    intro acc
    rw [List.foldl_cons]
    by_cases h : c x <;> simp [h, ih, List.filter_cons]

theorem partitionTransacoes_eq (txs : List Transacao) (rules : List Rule) :
    partitionTransacoes txs rules =
      (txs.enum.filter (fun p => temRegra rules (normalizar_texto p.2.descricao)),
       txs.enum.filter (fun p => !temRegra rules (normalizar_texto p.2.descricao))) := by
  unfold partitionTransacoes
  rw [foldl_partition]
  simp

theorem enumFrom_getElem? {α : Type} (l : List α) :
    ∀ (n i : Nat), (List.enumFrom n l)[i]? = l[i]?.map (fun t => (n + i, t)) := by
  induction l with
  | nil => intro n i; simp [List.enumFrom]
  | cons x xs ih =>
    intro n i
    cases i with
    | zero => simp [List.enumFrom_cons]
    | succ j =>
      rw [List.enumFrom_cons, List.getElem?_cons_succ, List.getElem?_cons_succ, ih (n + 1) j]
      have : n + 1 + j = n + (j + 1) := by omega
      rw [this]

theorem enum_getElem? {α : Type} (l : List α) (i : Nat) :
    l.enum[i]? = l[i]?.map (fun t => (i, t)) := by
  show (List.enumFrom 0 l)[i]? = l[i]?.map (fun t => (i, t))
  rw [enumFrom_getElem? l 0 i]
  simp

theorem pyIndex_getElem {α : Type} [DecidableEq α] (l : List α) :
    ∀ (i : Nat) (p : α), l.Nodup → l[i]? = some p → pyIndex l p = i := by
  induction l with
  | nil => intro i p _ h; simp at h
  | cons x xs ih =>
    intro i p hn h
    cases i with
    | zero =>
      rw [List.getElem?_cons_zero] at h
      obtain rfl : x = p := by simpa using h
      unfold pyIndex
      rw [List.findIdx_cons]
      simp
    | succ j =>
      rw [List.getElem?_cons_succ] at h
      have hmem : p ∈ xs := List.getElem?_mem h
      have hx : x ≠ p := by
        rintro rfl
        exact (List.nodup_cons.mp hn).1 hmem
      unfold pyIndex
      rw [List.findIdx_cons]
      have : decide (x = p) = false := by simpa using hx
      rw [this]
      show List.findIdx (fun y => decide (y = p)) xs + 1 = j + 1
      have := ih j p (List.nodup_cons.mp hn).2 h
      unfold pyIndex at this
      omega

theorem nodup_fst_filter_enum (txs : List Transacao) (q : Nat × Transacao → Bool) :
    ((txs.enum.filter q).map Prod.fst).Nodup := by
  have h1 : (txs.enum.filter q).Sublist txs.enum := List.filter_sublist _
  have h2 : ((txs.enum.filter q).map Prod.fst).Sublist (txs.enum.map Prod.fst) :=
    h1.map Prod.fst
  rw [List.enum_map_fst] at h2
  exact h2.nodup (List.nodup_range _)

theorem buildCategorizacoesLlm_go (sem : List (Nat × Transacao))
    (batch : ResultadoCategorizacaoBatch) (xs : List (Nat × Transacao)) :
    ∀ acc : List (Nat × CategorizacaoLLM),
      xs.foldl
        (fun dict p =>
          match batch.transacoes.find?
              (fun cat => decide (cat.index = pyIndex sem p)) with
          | some cat => dict ++ [(p.1, cat)]
          | none => dict) acc
      = acc ++ xs.filterMap
          (fun p => (batch.transacoes.find?
            (fun cat => decide (cat.index = pyIndex sem p))).map (fun v => (p.1, v))) := by
  induction xs with
  | nil => intro acc; simp
  | cons x xs ih =>
    intro acc
    rw [List.foldl_cons, List.filterMap_cons]
    cases hf : batch.transacoes.find? (fun cat => decide (cat.index = pyIndex sem x)) <;>
      simp [hf, ih]

theorem buildCategorizacoesLlm_eq (sem : List (Nat × Transacao))
    (batch : ResultadoCategorizacaoBatch) :
    buildCategorizacoesLlm sem batch =
      sem.filterMap
        (fun p => (batch.transacoes.find?
          (fun cat => decide (cat.index = pyIndex sem p))).map (fun v => (p.1, v))) := by
  unfold buildCategorizacoesLlm
  simpa using buildCategorizacoesLlm_go sem batch sem []

theorem filterMap_pairs_keys {κ γ β : Type} (key : β → κ) (f : β → Option γ) (l : List β)
    {q : κ × γ} (h : q ∈ l.filterMap (fun p => (f p).map (fun v => (key p, v)))) :
    q.1 ∈ l.map key := by
  rcases List.mem_filterMap.mp h with ⟨b, hb, he⟩
  cases hf : f b <;> rw [hf] at he
  · simp at he
  · obtain rfl : (key b, _) = q := by simpa using he
    exact List.mem_map_of_mem key hb

theorem dget_filterMap_at {κ γ β : Type} [DecidableEq κ] (key : β → κ) (f : β → Option γ)
    (l : List β) : ∀ (i : Nat) (p : β), (l.map key).Nodup → l[i]? = some p →
      dget (l.filterMap (fun q => (f q).map (fun v => (key q, v)))) (key p) = f p := by
  induction l with
  | nil => intro i p _ h; simp at h
  | cons x xs ih =>
    intro i p hn h
    rw [List.filterMap_cons]
    have hn' : (xs.map key).Nodup := by
      rw [List.map_cons, List.nodup_cons] at hn
      exact hn.2
    have hnx : key x ∉ xs.map key := by
      rw [List.map_cons, List.nodup_cons] at hn
      exact hn.1
    cases i with
    | zero =>
      rw [List.getElem?_cons_zero] at h
      obtain rfl : x = p := by simpa using h
      have hnone : dget (xs.filterMap (fun q => (f q).map (fun v => (key q, v)))) (key x)
          = none := by
        apply dget_eq_none
        intro q hq he
        exact hnx (he ▸ filterMap_pairs_keys key f xs hq)
      cases hf : f x with
      | none => simpa using hnone
      | some v =>
        simp only [Option.map_some']
        show (match dget (xs.filterMap (fun q => (f q).map (fun v => (key q, v)))) (key x) with
          | some w => some w
          | none => if key x = key x then some ((key x, v) : κ × γ).2 else none) = some v
        rw [hnone]
        simp
    | succ j =>
      rw [List.getElem?_cons_succ] at h
      have hkey : key x ≠ key p := by
        intro he
        exact hnx (he ▸ List.mem_map_of_mem key (List.getElem?_mem h))
      cases hf : f x with
      | none => exact ih j p hn' h
      | some v =>
        simp only [Option.map_some']
        rw [dget_cons_ne (key x, v) _ (key p) hkey]
        exact ih j p hn' h

/-! ## Helper lemmas: the resolver branches -/

theorem temRegra_false_iff (rules : List Rule) (d : String) :
    temRegra rules d = false ↔ matchingRules rules d = [] := by
  unfold temRegra matchingRules
  rw [List.any_eq_false, List.filter_eq_nil_iff]

theorem sortRulesDesc_nil_iff (l : List Rule) : sortRulesDesc l = [] ↔ l = [] := by
  cases l with
  | nil => simp [sortRulesDesc]
  | cons x xs =>
    show insertRuleDesc x (sortRulesDesc xs) = [] ↔ _
    constructor
    · intro h
      exfalso
      cases hs : sortRulesDesc xs with
      | nil => rw [hs] at h; exact List.cons_ne_nil x [] h
      | cons y ys =>
        rw [hs] at h
        unfold insertRuleDesc at h
        by_cases hk : keyLt (ruleKey x) (ruleKey y) <;> simp [hk] at h
    · intro h; simp at h

theorem individual_rule_case (t : Transacao) (i : Nat) (rules : List Rule)
    (cbi : List (String × CategoryTemplate)) (sbi : List (String × SubcategoryTemplate))
    (cbn : List (String × CategoryTemplate)) (sbn : List (String × SubcategoryTemplate))
    (dc : Option CategoryTemplate) (ds : Option SubcategoryTemplate)
    (llm : List (Nat × CategorizacaoLLM)) (subs : List SubcategoryTemplate)
    (best : Rule) (rest : List Rule)
    (h : sortRulesDesc (matchingRules rules (normalizar_texto t.descricao)) = best :: rest) :
    categorizar_transacao_individual t i rules cbi sbi cbn sbn dc ds llm subs
      = mkTransacaoCategorizada t (ruleFields best cbi sbi) := by
  unfold categorizar_transacao_individual
  rw [h]

theorem individual_no_rule_case (t : Transacao) (i : Nat) (rules : List Rule)
    (cbi : List (String × CategoryTemplate)) (sbi : List (String × SubcategoryTemplate))
    (cbn : List (String × CategoryTemplate)) (sbn : List (String × SubcategoryTemplate))
    (dc : Option CategoryTemplate) (ds : Option SubcategoryTemplate)
    (llm : List (Nat × CategorizacaoLLM)) (subs : List SubcategoryTemplate)
    (h : temRegra rules (normalizar_texto t.descricao) = false) :
    categorizar_transacao_individual t i rules cbi sbi cbn sbn dc ds llm subs
      = mkTransacaoCategorizada t
          (defaultFields (suggestionFields i llm cbn subs) dc ds) := by
  have hm : matchingRules rules (normalizar_texto t.descricao) = [] :=
    (temRegra_false_iff rules (normalizar_texto t.descricao)).mp h
  unfold categorizar_transacao_individual
  rw [hm]
  rfl

theorem suggestionFields_of_no_entry (i : Nat) (llm : List (Nat × CategorizacaoLLM))
    (cbn : List (String × CategoryTemplate)) (subs : List SubcategoryTemplate)
    (h : dget llm i = none) :
    suggestionFields i llm cbn subs = {} := by
  unfold suggestionFields
  rw [h]

theorem defaultFields_category_step (f : CamposCategoria) (dc : Option CategoryTemplate) :
    (if truthyO f.category_id then f else
      match dc with
      | some c => { f with category_id := some c.id, category_name := some c.name }
      | none => f).subcategory_id = f.subcategory_id := by
  by_cases h : truthyO f.category_id <;> cases dc <;> simp [h]

theorem defaultFields_spec (f : CamposCategoria) (dc : Option CategoryTemplate)
    (ds : Option SubcategoryTemplate) :
    ((defaultFields f dc ds).category_id, (defaultFields f dc ds).category_name)
      = (if truthyO f.category_id then (f.category_id, f.category_name)
         else match dc with
           | some c => (some c.id, some c.name)
           | none => (f.category_id, f.category_name))
    ∧ ((defaultFields f dc ds).subcategory_id, (defaultFields f dc ds).subcategory_name)
      = (if truthyO f.subcategory_id then (f.subcategory_id, f.subcategory_name)
         else match ds with
           | some s => (some s.id, some s.name)
           | none => (f.subcategory_id, f.subcategory_name)) := by
  unfold defaultFields
  by_cases h1 : truthyO f.category_id <;>
    cases dc <;>
    by_cases h2 : truthyO f.subcategory_id <;>
    cases ds <;>
    simp [h1, h2]

theorem suggestionFields_unmatched_category (i : Nat) (llm : List (Nat × CategorizacaoLLM))
    (cbn : List (String × CategoryTemplate)) (subs : List SubcategoryTemplate)
    (sg : CategorizacaoLLM) (cn : String)
    (h1 : dget llm i = some sg) (h2 : sg.categoria = some cn)
    (h4 : dget cbn (pyLower cn) = none) :
    suggestionFields i llm cbn subs = {} := by
  unfold suggestionFields
  by_cases h3 : cn = ""
  · simp only [h1, h2, h3, if_pos]
  · simp only [h1, h2, if_neg h3, h4]

theorem suggestionFields_matched_category (i : Nat) (llm : List (Nat × CategorizacaoLLM))
    (cbn : List (String × CategoryTemplate)) (subs : List SubcategoryTemplate)
    (sg : CategorizacaoLLM) (cn : String) (cat : CategoryTemplate)
    (h1 : dget llm i = some sg) (h2 : sg.categoria = some cn) (h3 : cn ≠ "")
    (h4 : dget cbn (pyLower cn) = some cat) :
    (suggestionFields i llm cbn subs).category_id = some cat.id
      ∧ (suggestionFields i llm cbn subs).category_name = some cat.name := by
  unfold suggestionFields
  simp only [h1, h2, if_neg h3, h4]
  cases hsn : sg.subcategoria with
  | none => exact ⟨rfl, rfl⟩
  | some sn =>
    by_cases hse : sn = ""
    · subst hse
      exact ⟨rfl, rfl⟩
    · simp only [if_neg hse]
      cases hfind : (subs.filter
          (fun sub => decide (sub.category_template_id = some cat.id))).find?
          (fun sub => decide (pyLower sub.name = pyLower sn)) with
      | none => exact ⟨rfl, rfl⟩
      | some m => exact ⟨rfl, rfl⟩

theorem suggestionFields_sub_spec (i : Nat) (llm : List (Nat × CategorizacaoLLM))
    (cbn : List (String × CategoryTemplate)) (subs : List SubcategoryTemplate)
    (sid : String)
    (h : (suggestionFields i llm cbn subs).subcategory_id = some sid) :
    ∃ sg cn cat m sn,
      dget llm i = some sg ∧ sg.categoria = some cn ∧ cn ≠ ""
      ∧ dget cbn (pyLower cn) = some cat ∧ sg.subcategoria = some sn ∧ sn ≠ ""
      ∧ m ∈ subs ∧ m.id = sid ∧ m.category_template_id = some cat.id
      ∧ pyLower m.name = pyLower sn
      ∧ (suggestionFields i llm cbn subs).category_id = some cat.id
      ∧ (suggestionFields i llm cbn subs).subcategory_name = some m.name := by
  unfold suggestionFields at h ⊢
  cases hsg : dget llm i with
  | none => simp only [hsg] at h; simp at h
  | some sg =>
    simp only [hsg] at h ⊢
    cases hcn : sg.categoria with
    | none => simp only [hcn] at h; simp at h
    | some cn =>
      simp only [hcn] at h ⊢
      by_cases hce : cn = ""
      · simp [hce] at h
      · simp only [if_neg hce] at h ⊢
        cases hcat : dget cbn (pyLower cn) with
        | none => simp only [hcat] at h; simp at h
        | some cat =>
          simp only [hcat] at h ⊢
          cases hsn : sg.subcategoria with
          | none => simp only [hsn] at h; simp at h
          | some sn =>
            simp only [hsn] at h ⊢
            by_cases hse : sn = ""
            · simp [hse] at h
            · simp only [if_neg hse] at h ⊢
              cases hfind : (subs.filter
                  (fun sub => decide (sub.category_template_id = some cat.id))).find?
                  (fun sub => decide (pyLower sub.name = pyLower sn)) with
              | none => simp only [hfind] at h; simp at h
              | some m =>
                simp only [hfind] at h ⊢
                have hm1 := List.mem_filter.mp (List.mem_of_find?_eq_some hfind)
                have hm2 := List.find?_some hfind
                refine ⟨sg, cn, cat, m, sn, rfl, hcn, hce, hcat, hsn, hse, hm1.1, ?_,
                  of_decide_eq_true hm1.2, of_decide_eq_true hm2, rfl, rfl⟩
                simpa using h

theorem individual_default_sub_applied (cats : List CategoryTemplate)
    (subs : List SubcategoryTemplate) (t : Transacao) (i : Nat) (rules : List Rule)
    (cbi : List (String × CategoryTemplate)) (sbi : List (String × SubcategoryTemplate))
    (sbn : List (String × SubcategoryTemplate)) (llm : List (Nat × CategorizacaoLLM))
    (ds : SubcategoryTemplate)
    (h1 : temRegra rules (normalizar_texto t.descricao) = false)
    (h2 : truthyO (suggestionFields i llm (category_by_name cats) subs).subcategory_id
      = false)
    (h3 : default_subcategory cats subs = some ds) :
    (categorizar_transacao_individual t i rules cbi sbi (category_by_name cats) sbn
        (default_category cats) (default_subcategory cats subs) llm subs).subcategory_id
      = some ds.id
    ∧ (categorizar_transacao_individual t i rules cbi sbi (category_by_name cats) sbn
        (default_category cats) (default_subcategory cats subs) llm subs).subcategory_name
      = some ds.name := by
  rw [individual_no_rule_case t i rules cbi sbi (category_by_name cats) sbn
    (default_category cats) (default_subcategory cats subs) llm subs h1, h3]
  obtain ⟨_, hspair⟩ :=
    defaultFields_spec (suggestionFields i llm (category_by_name cats) subs)
      (default_category cats) (some ds)
  rw [h2] at hspair
  exact ⟨congrArg Prod.fst hspair, congrArg Prod.snd hspair⟩

/-! ## The claims -/

/-- C2: for every description and rule list, the applied rule (the head of the
stably sorted matching rules, services.py lines 300-318) is the matching rule
maximal under descending lexicographic order of
(confirmed_count, usage_count, pattern length), with any tie resolved in
favour of the rule earlier in the original list: the code agrees with the
spec-side `bestOf`, every matching rule strictly before the selected one has a
strictly smaller key, no matching rule after it has a strictly larger key, and
no rule is selected exactly when no rule matches. -/
theorem C2_best_rule_selection (descricao : String) (rules : List Rule) :
    findBestRule descricao rules
      = bestOf (matchingRules rules (normalizar_texto descricao))
    ∧ (∀ r, findBestRule descricao rules = some r →
        ∃ l₁ l₂, matchingRules rules (normalizar_texto descricao) = l₁ ++ r :: l₂
          ∧ (∀ x ∈ l₁, keyLt (ruleKey x) (ruleKey r))
          ∧ (∀ x ∈ l₂, ¬ keyLt (ruleKey r) (ruleKey x)))
    ∧ (matchingRules rules (normalizar_texto descricao) = []
        ↔ findBestRule descricao rules = none) := by
  have h1 : findBestRule descricao rules
      = bestOf (matchingRules rules (normalizar_texto descricao)) := by
    unfold findBestRule
    exact head?_sortRulesDesc _
  refine ⟨h1, ?_, ?_⟩
  · intro r hr
    exact bestOf_spec _ r (h1 ▸ hr)
  · rw [h1, bestOf_eq_none_iff]

/-- C2 witness: with the two matching rules keyed (2,5,4) and (2,5,10) the
longer pattern wins, and with (3,0,4) against (1,99,4) the rule with
confirmed_count 3 wins. -/
theorem C2_best_rule_selection_witness :
    findBestRule "UBER Trip 123" [exRuleShort, exRuleLong] = some exRuleLong
    ∧ findBestRule "uber trip 123" [exRuleUsed, exRuleConf] = some exRuleConf := by
  constructor
  · rw [(C2_best_rule_selection "UBER Trip 123" [exRuleShort, exRuleLong]).1]
    decide
  · rw [(C2_best_rule_selection "uber trip 123" [exRuleUsed, exRuleConf]).1]
    decide

/-- C3: when some rule matches, the output is exactly the rule branch applied
to the best rule — identical for every suggestion mapping, default pair,
batch index and name-lookup table, so suggestions and defaults are never
consulted; the category pair comes only from the rule category_template_id
when present in the catalog and stays null when the id is absent, the
subcategory pair likewise and independently of category success (it does not
depend on the category dict at all). -/
theorem C3_rule_resolution_terminal (t : Transacao) (i j : Nat) (rules : List Rule)
    (cbi : List (String × CategoryTemplate)) (sbi : List (String × SubcategoryTemplate))
    (cbn cbn2 : List (String × CategoryTemplate))
    (sbn sbn2 : List (String × SubcategoryTemplate))
    (dc dc2 : Option CategoryTemplate) (ds ds2 : Option SubcategoryTemplate)
    (llm llm2 : List (Nat × CategorizacaoLLM)) (subs subs2 : List SubcategoryTemplate)
    (best : Rule) (rest : List Rule)
    (h : sortRulesDesc (matchingRules rules (normalizar_texto t.descricao)) = best :: rest) :
    categorizar_transacao_individual t i rules cbi sbi cbn sbn dc ds llm subs
      = mkTransacaoCategorizada t (ruleFields best cbi sbi)
    ∧ categorizar_transacao_individual t i rules cbi sbi cbn sbn dc ds llm subs
      = categorizar_transacao_individual t j rules cbi sbi cbn2 sbn2 dc2 ds2 llm2 subs2
    ∧ (∀ cid cat, best.category_template_id = some cid → cid ≠ "" →
        dget cbi cid = some cat →
        (ruleFields best cbi sbi).category_id = some cat.id
          ∧ (ruleFields best cbi sbi).category_name = some cat.name)
    ∧ (∀ cid, best.category_template_id = some cid → dget cbi cid = none →
        (ruleFields best cbi sbi).category_id = none
          ∧ (ruleFields best cbi sbi).category_name = none)
    ∧ (∀ sid sub, best.subcategory_template_id = some sid → sid ≠ "" →
        dget sbi sid = some sub →
        (ruleFields best cbi sbi).subcategory_id = some sub.id
          ∧ (ruleFields best cbi sbi).subcategory_name = some sub.name)
    ∧ (∀ sid, best.subcategory_template_id = some sid → dget sbi sid = none →
        (ruleFields best cbi sbi).subcategory_id = none
          ∧ (ruleFields best cbi sbi).subcategory_name = none)
    ∧ (∀ cbi2, (ruleFields best cbi2 sbi).subcategory_id
          = (ruleFields best cbi sbi).subcategory_id
        ∧ (ruleFields best cbi2 sbi).subcategory_name
          = (ruleFields best cbi sbi).subcategory_name) := by
  refine ⟨individual_rule_case t i rules cbi sbi cbn sbn dc ds llm subs best rest h,
    ?_, ?_, ?_, ?_, ?_, ?_⟩
  · rw [individual_rule_case t i rules cbi sbi cbn sbn dc ds llm subs best rest h,
      individual_rule_case t j rules cbi sbi cbn2 sbn2 dc2 ds2 llm2 subs2 best rest h]
  · intro cid cat hc hne hg
    unfold ruleFields ruleCategoryFields
    simp only [hc, if_neg hne, hg]
    exact ⟨trivial, trivial⟩
  · intro cid hc hg
    unfold ruleFields ruleCategoryFields
    simp only [hc]
    by_cases hce : cid = ""
    · simp only [if_pos hce]
      exact ⟨trivial, trivial⟩
    · simp only [if_neg hce, hg]
      exact ⟨trivial, trivial⟩
  · intro sid sub hs hne hg
    unfold ruleFields ruleSubcategoryFields
    simp only [hs, if_neg hne, hg]
    exact ⟨trivial, trivial⟩
  · intro sid hs hg
    unfold ruleFields ruleSubcategoryFields
    simp only [hs]
    by_cases hse : sid = ""
    · simp only [if_pos hse]
      exact ⟨trivial, trivial⟩
    · simp only [if_neg hse, hg]
      exact ⟨trivial, trivial⟩
  · intro cbi2
    exact ⟨rfl, rfl⟩

/-- C3 witness: the transaction "UBER Trip 123" with the single rule keyed to
"uber" resolves exactly to that rule's catalog entries, with an arbitrary
suggestion present for its index that is never consulted. -/
theorem C3_rule_resolution_terminal_witness :
    categorizar_transacao_individual uberTx 0 [exRuleShort] (category_by_id exCats)
        (subcategory_by_id exSubs) (category_by_name exCats) (subcategory_by_name exSubs)
        (default_category exCats) (default_subcategory exCats exSubs) exLlmDict exSubs
      = mkTransacaoCategorizada uberTx
          (ruleFields exRuleShort (category_by_id exCats) (subcategory_by_id exSubs)) :=
  (C3_rule_resolution_terminal uberTx 0 0 [exRuleShort] (category_by_id exCats)
    (subcategory_by_id exSubs) (category_by_name exCats) (category_by_name exCats)
    (subcategory_by_name exSubs) (subcategory_by_name exSubs)
    (default_category exCats) (default_category exCats)
    (default_subcategory exCats exSubs) (default_subcategory exCats exSubs)
    exLlmDict exLlmDict exSubs exSubs exRuleShort [] (by decide)).1

theorem dget_some_mem {κ α : Type} [DecidableEq κ] {l : List (κ × α)} {k : κ} {v : α}
    (h : dget l k = some v) : ∃ p ∈ l, p.1 = k := by
  induction l with
  | nil => simp [dget] at h
  | cons p ps ih =>
    rw [show dget (p :: ps) k =
        (match dget ps k with
          | some v => some v
          | none => if p.1 = k then some p.2 else none) from rfl] at h
    cases hd : dget ps k with
    | some w =>
      rw [hd] at h
      obtain rfl : w = v := by simpa using h
      obtain ⟨q, hq, hk⟩ := ih hd
      exact ⟨q, List.mem_cons_of_mem p hq, hk⟩
    | none =>
      rw [hd] at h
      by_cases hk : p.1 = k
      · exact ⟨p, List.mem_cons_self p ps, hk⟩
      · simp [hk] at h

/-- C4: the partition (services.py lines 117-134) equals the order- and
index-preserving filters of the enumerated transaction list, the remap
(lines 146-153) maps the original index of the i-th without-rule entry to the
first suggestion whose batch index equals i, and every key of the suggestion
dict is the original index of a transaction with no matching rule. -/
theorem C4_partition_remap (txs : List Transacao) (rules : List Rule)
    (batch : ResultadoCategorizacaoBatch) :
    (partitionTransacoes txs rules).1
      = txs.enum.filter (fun p => temRegra rules (normalizar_texto p.2.descricao))
    ∧ (partitionTransacoes txs rules).2
      = txs.enum.filter (fun p => !temRegra rules (normalizar_texto p.2.descricao))
    ∧ (∀ i p, (partitionTransacoes txs rules).2[i]? = some p →
        dget (buildCategorizacoesLlm (partitionTransacoes txs rules).2 batch) p.1
          = batch.transacoes.find? (fun cat => decide (cat.index = i)))
    ∧ (∀ k v, dget (buildCategorizacoesLlm (partitionTransacoes txs rules).2 batch) k
          = some v →
        ∃ t, (k, t) ∈ (partitionTransacoes txs rules).2
          ∧ temRegra rules (normalizar_texto t.descricao) = false) := by
  have hpart := partitionTransacoes_eq txs rules
  have h1 : (partitionTransacoes txs rules).1
      = txs.enum.filter (fun p => temRegra rules (normalizar_texto p.2.descricao)) := by
    rw [hpart]
  have h2 : (partitionTransacoes txs rules).2
      = txs.enum.filter (fun p => !temRegra rules (normalizar_texto p.2.descricao)) := by
    rw [hpart]
  have hnod : ((partitionTransacoes txs rules).2.map Prod.fst).Nodup := by
    rw [h2]
    exact nodup_fst_filter_enum txs _
  refine ⟨h1, h2, ?_, ?_⟩
  · intro i p hp
    rw [buildCategorizacoesLlm_eq]
    have hpy : pyIndex (partitionTransacoes txs rules).2 p = i :=
      pyIndex_getElem (partitionTransacoes txs rules).2 i p (hnod.of_map) hp
    have hd : dget
        ((partitionTransacoes txs rules).2.filterMap
          (fun q => ((fun q => batch.transacoes.find?
              (fun cat => decide (cat.index = pyIndex (partitionTransacoes txs rules).2 q))) q).map
            (fun v => (q.1, v))))
        p.1
        = batch.transacoes.find?
            (fun cat => decide (cat.index = pyIndex (partitionTransacoes txs rules).2 p)) :=
      dget_filterMap_at Prod.fst
        (fun q => batch.transacoes.find?
          (fun cat => decide (cat.index = pyIndex (partitionTransacoes txs rules).2 q)))
        (partitionTransacoes txs rules).2 i p hnod hp
    rw [hpy] at hd
    exact hd
  · intro k v hv
    rw [buildCategorizacoesLlm_eq] at hv
    obtain ⟨q, hq, hqk⟩ := dget_some_mem hv
    rcases List.mem_filterMap.mp hq with ⟨b, hb, he⟩
    cases hf : batch.transacoes.find?
        (fun cat => decide (cat.index = pyIndex (partitionTransacoes txs rules).2 b)) with
    | none => rw [hf] at he; simp at he
    | some cat =>
      rw [hf] at he
      obtain rfl : (b.1, cat) = q := by simpa using he
      refine ⟨b.2, ?_, ?_⟩
      · have : (k, b.2) = b := by
          obtain ⟨b1, b2⟩ := b
          simp at hqk ⊢
          exact hqk.symm
        rw [this]
        exact hb
      · rw [h2] at hb
        have := (List.mem_filter.mp hb).2
        simpa using this

/-- C4 witness: for the one-transaction list with no rules, the suggestion
dict maps original index 0 to the batch suggestion tagged with local index 0. -/
theorem C4_partition_remap_witness :
    dget (buildCategorizacoesLlm (partitionTransacoes exTxs []).2 exBatch) 0
      = exBatch.transacoes.find? (fun cat => decide (cat.index = 0)) :=
  (C4_partition_remap exTxs [] exBatch).2.2.1 0
    (0, { data := "2024-01-01", descricao := "ifood", valor := 30, moeda := "BRL" })
    (by decide)

/-- C5: when the single suggestion-service call fails with any error, the
suggestion dict is empty and every transaction is still resolved (the pass is
total, so nothing is raised): each output equals the per-transaction resolver
run with the empty dict; rule-matched transactions still resolve from their
best rule, and transactions without a matching rule resolve to the defaults. -/
theorem C5_suggestion_failure_fail_soft (txs : List Transacao) (rules : List Rule)
    (cats : List CategoryTemplate) (subs : List SubcategoryTemplate)
    (svc : List Transacao → Except String ResultadoCategorizacaoBatch) (e : String)
    (h : svc ((partitionTransacoes txs rules).2.map Prod.snd) = Except.error e) :
    (categorizar_transacoes txs rules cats subs svc).categorizacoes_llm = []
    ∧ (∀ (i : Nat) (t : Transacao), txs[i]? = some t →
        (categorizar_transacoes txs rules cats subs svc).resultado[i]?
          = some (categorizar_transacao_individual t i rules (category_by_id cats)
              (subcategory_by_id subs) (category_by_name cats) (subcategory_by_name subs)
              (default_category cats) (default_subcategory cats subs) [] subs))
    ∧ (∀ (i : Nat) (t : Transacao) (best : Rule) (rest : List Rule), txs[i]? = some t →
        sortRulesDesc (matchingRules rules (normalizar_texto t.descricao)) = best :: rest →
        (categorizar_transacoes txs rules cats subs svc).resultado[i]?
          = some (mkTransacaoCategorizada t
              (ruleFields best (category_by_id cats) (subcategory_by_id subs))))
    ∧ (∀ (i : Nat) (t : Transacao), txs[i]? = some t →
        temRegra rules (normalizar_texto t.descricao) = false →
        (categorizar_transacoes txs rules cats subs svc).resultado[i]?
          = some (mkTransacaoCategorizada t
              (defaultFields {} (default_category cats)
                (default_subcategory cats subs)))) := by
  have hdict : (llmCallOutcome (partitionTransacoes txs rules).2 svc).1 = [] := by
    unfold llmCallOutcome
    by_cases hemp : (partitionTransacoes txs rules).2.isEmpty
    · rw [if_pos hemp]
    · rw [if_neg hemp, h]
  have hres : ∀ (i : Nat) (t : Transacao), txs[i]? = some t →
      (categorizar_transacoes txs rules cats subs svc).resultado[i]?
        = some (categorizar_transacao_individual t i rules (category_by_id cats)
            (subcategory_by_id subs) (category_by_name cats) (subcategory_by_name subs)
            (default_category cats) (default_subcategory cats subs) [] subs) := by
    intro i t ht
    show (txs.enum.map (fun p => categorizar_transacao_individual p.2 p.1 rules
        (category_by_id cats) (subcategory_by_id subs) (category_by_name cats)
        (subcategory_by_name subs) (default_category cats) (default_subcategory cats subs)
        (llmCallOutcome (partitionTransacoes txs rules).2 svc).1 subs))[i]?
      = some (categorizar_transacao_individual t i rules (category_by_id cats)
          (subcategory_by_id subs) (category_by_name cats) (subcategory_by_name subs)
          (default_category cats) (default_subcategory cats subs) [] subs)
    rw [List.getElem?_map, enum_getElem? txs i, ht, hdict]
    rfl
  refine ⟨?_, hres, ?_, ?_⟩
  · show (llmCallOutcome (partitionTransacoes txs rules).2 svc).1 = []
    exact hdict
  · intro i t best rest ht hs
    rw [hres i t ht,
      individual_rule_case t i rules (category_by_id cats) (subcategory_by_id subs)
        (category_by_name cats) (subcategory_by_name subs) (default_category cats)
        (default_subcategory cats subs) [] subs best rest hs]
  · intro i t ht htr
    rw [hres i t ht,
      individual_no_rule_case t i rules (category_by_id cats) (subcategory_by_id subs)
        (category_by_name cats) (subcategory_by_name subs) (default_category cats)
        (default_subcategory cats subs) [] subs htr,
      suggestionFields_of_no_entry i [] (category_by_name cats) subs rfl]

/-- C5 witness: with a failing suggestion service the run of the single
no-rule transaction produces the empty dict and the default category and
subcategory of the example catalog. -/
theorem C5_suggestion_failure_fail_soft_witness :
    (categorizar_transacoes exTxs [] exCats exSubs exSvcErr).categorizacoes_llm = []
    ∧ (categorizar_transacoes exTxs [] exCats exSubs exSvcErr).resultado[0]?
        = some (mkTransacaoCategorizada
            { data := "2024-01-01", descricao := "ifood", valor := 30, moeda := "BRL" }
            (defaultFields {} (default_category exCats)
              (default_subcategory exCats exSubs))) :=
  ⟨(C5_suggestion_failure_fail_soft exTxs [] exCats exSubs exSvcErr "timeout" rfl).1,
   (C5_suggestion_failure_fail_soft exTxs [] exCats exSubs exSvcErr "timeout" rfl).2.2.2 0
     { data := "2024-01-01", descricao := "ifood", valor := 30, moeda := "BRL" }
     (by decide) (by decide)⟩

/-- C6: a transaction with no matching rule and no entry in the suggestion
dict resolves to the default category and subcategory, or to null fields when
they are absent; the default category is the first catalog category named
"Outros" of type "expense" (absent exactly when no such category exists), the
default subcategory the first named "sem categoria" under it. -/
theorem C6_default_resolution (cats : List CategoryTemplate)
    (subs : List SubcategoryTemplate) (t : Transacao) (i : Nat) (rules : List Rule)
    (cbi : List (String × CategoryTemplate)) (sbi : List (String × SubcategoryTemplate))
    (sbn : List (String × SubcategoryTemplate)) (llm : List (Nat × CategorizacaoLLM))
    (h1 : temRegra rules (normalizar_texto t.descricao) = false)
    (h2 : dget llm i = none) :
    (categorizar_transacao_individual t i rules cbi sbi (category_by_name cats) sbn
        (default_category cats) (default_subcategory cats subs) llm subs).category_id
      = (default_category cats).map (fun c => c.id)
    ∧ (categorizar_transacao_individual t i rules cbi sbi (category_by_name cats) sbn
        (default_category cats) (default_subcategory cats subs) llm subs).category_name
      = (default_category cats).map (fun c => c.name)
    ∧ (categorizar_transacao_individual t i rules cbi sbi (category_by_name cats) sbn
        (default_category cats) (default_subcategory cats subs) llm subs).subcategory_id
      = (default_subcategory cats subs).map (fun sub => sub.id)
    ∧ (categorizar_transacao_individual t i rules cbi sbi (category_by_name cats) sbn
        (default_category cats) (default_subcategory cats subs) llm subs).subcategory_name
      = (default_subcategory cats subs).map (fun sub => sub.name)
    ∧ (∀ c, default_category cats = some c →
        c ∈ cats ∧ c.name = "Outros" ∧ c.type = "expense")
    ∧ (default_category cats = none →
        ∀ c ∈ cats, ¬ (c.name = "Outros" ∧ c.type = "expense"))
    ∧ (∀ sub, default_subcategory cats subs = some sub →
        sub ∈ subs ∧ sub.name = "sem categoria"
          ∧ ∃ c, default_category cats = some c ∧ sub.category_template_id = some c.id)
    ∧ (default_category cats = none → default_subcategory cats subs = none) := by
  rw [individual_no_rule_case t i rules cbi sbi (category_by_name cats) sbn
    (default_category cats) (default_subcategory cats subs) llm subs h1,
    suggestionFields_of_no_entry i llm (category_by_name cats) subs h2]
  obtain ⟨hcpair, hspair⟩ :=
    defaultFields_spec {} (default_category cats) (default_subcategory cats subs)
  have hcid := congrArg Prod.fst hcpair
  have hcname := congrArg Prod.snd hcpair
  have hsid := congrArg Prod.fst hspair
  have hsname := congrArg Prod.snd hspair
  simp only [truthyO] at hcid hcname hsid hsname
  refine ⟨?_, ?_, ?_, ?_, ?_, ?_, ?_, ?_⟩
  · show (defaultFields {} (default_category cats) (default_subcategory cats subs)).category_id
      = (default_category cats).map (fun c => c.id)
    rw [hcid]
    cases default_category cats <;> simp
  · show (defaultFields {} (default_category cats)
        (default_subcategory cats subs)).category_name
      = (default_category cats).map (fun c => c.name)
    rw [hcname]
    cases default_category cats <;> simp
  · show (defaultFields {} (default_category cats)
        (default_subcategory cats subs)).subcategory_id
      = (default_subcategory cats subs).map (fun sub => sub.id)
    rw [hsid]
    cases default_subcategory cats subs <;> simp
  · show (defaultFields {} (default_category cats)
        (default_subcategory cats subs)).subcategory_name
      = (default_subcategory cats subs).map (fun sub => sub.name)
    rw [hsname]
    cases default_subcategory cats subs <;> simp
  · intro c hc
    unfold default_category at hc
    have hm := List.mem_of_find?_eq_some hc
    have hp := List.find?_some hc
    simp only [decide_eq_true_eq] at hp
    exact ⟨hm, hp.1, hp.2⟩
  · intro hn c hm hp
    unfold default_category at hn
    have := List.find?_eq_none.mp hn c hm
    exact this (decide_eq_true hp)
  · intro sub hs
    unfold default_subcategory at hs
    cases hdc : default_category cats with
    | none => rw [hdc] at hs; simp at hs
    | some c =>
      rw [hdc] at hs
      have hs' : subs.find?
          (fun sub => decide (sub.name = "sem categoria"
            ∧ sub.category_template_id = some c.id)) = some sub := hs
      have hm := List.mem_of_find?_eq_some hs'
      have hp := List.find?_some hs'
      simp only [decide_eq_true_eq] at hp
      exact ⟨hm, hp.1, c, rfl, hp.2⟩
  · intro hn
    unfold default_subcategory
    rw [hn]

/-- C6 witness: in the example catalog the no-rule, no-suggestion transaction
gets "Outros" and "sem categoria". -/
theorem C6_default_resolution_witness :
    (categorizar_transacao_individual
        { data := "2024-01-01", descricao := "ifood", valor := 30, moeda := "BRL" }
        0 [] (category_by_id exCats) (subcategory_by_id exSubs) (category_by_name exCats)
        (subcategory_by_name exSubs) (default_category exCats)
        (default_subcategory exCats exSubs) [] exSubs).category_id
      = (default_category exCats).map (fun c => c.id) :=
  (C6_default_resolution exCats exSubs
    { data := "2024-01-01", descricao := "ifood", valor := 30, moeda := "BRL" }
    0 [] (category_by_id exCats) (subcategory_by_id exSubs) (subcategory_by_name exSubs)
    [] (by decide) (by decide)).1

/-- C7: for a transaction without a matching rule whose subcategory is still
unset after the suggestion step (including when the suggestion set the
category but no valid subcategory), an existing default subcategory is
applied. -/
theorem C7_default_subcategory_applied (cats : List CategoryTemplate)
    (subs : List SubcategoryTemplate) (t : Transacao) (i : Nat) (rules : List Rule)
    (cbi : List (String × CategoryTemplate)) (sbi : List (String × SubcategoryTemplate))
    (sbn : List (String × SubcategoryTemplate)) (llm : List (Nat × CategorizacaoLLM))
    (ds : SubcategoryTemplate)
    (h1 : temRegra rules (normalizar_texto t.descricao) = false)
    (h2 : truthyO (suggestionFields i llm (category_by_name cats) subs).subcategory_id
      = false)
    (h3 : default_subcategory cats subs = some ds) :
    (categorizar_transacao_individual t i rules cbi sbi (category_by_name cats) sbn
        (default_category cats) (default_subcategory cats subs) llm subs).subcategory_id
      = some ds.id
    ∧ (categorizar_transacao_individual t i rules cbi sbi (category_by_name cats) sbn
        (default_category cats) (default_subcategory cats subs) llm subs).subcategory_name
      = some ds.name :=
  individual_default_sub_applied cats subs t i rules cbi sbi sbn llm ds h1 h2 h3

/-- C7 witness: the suggestion sets "Alimentação" with no subcategory, and the
default subcategory "sem categoria" (child of "Outros") is applied anyway. -/
theorem C7_default_subcategory_applied_witness :
    (categorizar_transacao_individual
        { data := "2024-01-01", descricao := "ifood", valor := 30, moeda := "BRL" }
        0 [] (category_by_id exCats) (subcategory_by_id exSubs) (category_by_name exCats)
        (subcategory_by_name exSubs) (default_category exCats)
        (default_subcategory exCats exSubs) exLlmDict exSubs).subcategory_id
      = some "s-sem" :=
  (C7_default_subcategory_applied exCats exSubs
    { data := "2024-01-01", descricao := "ifood", valor := 30, moeda := "BRL" }
    0 [] (category_by_id exCats) (subcategory_by_id exSubs) (subcategory_by_name exSubs)
    exLlmDict { id := "s-sem", name := "sem categoria", category_template_id := some "c-out" }
    (by decide) (by decide) (by decide)).1

/-- C8: a consumed suggestion's category name is matched case-insensitively
(lookup key: the lowercased name) and an unmatched name yields no suggestion
fields at all; the subcategory name is matched case-insensitively only among
subcategories whose category_template_id equals the matched category's id, so
any applied subcategory provably belongs to that category — one matching by
text but belonging to a different category is never applied. -/
theorem C8_suggestion_catalog_validation (i : Nat) (llm : List (Nat × CategorizacaoLLM))
    (cbn : List (String × CategoryTemplate)) (subs : List SubcategoryTemplate)
    (sg : CategorizacaoLLM) (cn : String)
    (h1 : dget llm i = some sg) (h2 : sg.categoria = some cn) :
    (dget cbn (pyLower cn) = none → suggestionFields i llm cbn subs = {})
    ∧ (∀ cat, cn ≠ "" → dget cbn (pyLower cn) = some cat →
        (suggestionFields i llm cbn subs).category_id = some cat.id
          ∧ (suggestionFields i llm cbn subs).category_name = some cat.name)
    ∧ (∀ sid, (suggestionFields i llm cbn subs).subcategory_id = some sid →
        ∃ cat m sn, dget cbn (pyLower cn) = some cat ∧ sg.subcategoria = some sn
          ∧ m ∈ subs ∧ m.id = sid ∧ m.category_template_id = some cat.id
          ∧ pyLower m.name = pyLower sn
          ∧ (suggestionFields i llm cbn subs).subcategory_name = some m.name) := by
  refine ⟨?_, ?_, ?_⟩
  · intro hnone
    exact suggestionFields_unmatched_category i llm cbn subs sg cn h1 h2 hnone
  · intro cat hne hsome
    exact suggestionFields_matched_category i llm cbn subs sg cn cat h1 h2 hne hsome
  · intro sid hsid
    obtain ⟨sg2, cn2, cat, m, sn, e1, e2, _, e4, e5, _, hm, hid, hct, hnm, _, hsn⟩ :=
      suggestionFields_sub_spec i llm cbn subs sid hsid
    obtain rfl : sg2 = sg := by
      rw [h1] at e1
      exact ((Option.some.injEq sg sg2).mp e1).symm
    obtain rfl : cn2 = cn := by
      rw [h2] at e2
      exact ((Option.some.injEq cn cn2).mp e2).symm
    exact ⟨cat, m, sn, e4, e5, hm, hid, hct, hnm, hsn⟩

/-- C8 witness: the suggestion names category "Outros" and subcategory
"Restaurantes"; "Restaurantes" exists in the catalog but belongs to
"Alimentação", so the category is applied and the subcategory is not. -/
theorem C8_suggestion_catalog_validation_witness :
    (suggestionFields 0 exLlmCross (category_by_name exCats) exSubsCross).category_id
      = some "c-out"
    ∧ (suggestionFields 0 exLlmCross (category_by_name exCats) exSubsCross).subcategory_id
      = none := by
  constructor
  · have h := ((C8_suggestion_catalog_validation 0 exLlmCross (category_by_name exCats)
      exSubsCross { index := 0, categoria := some "Outros", subcategoria := some "Restaurantes" }
      "Outros" (by decide) (by decide)).2.1
      { id := "c-out", name := "Outros", type := "expense" } (by decide) (by decide)).1
    exact h
  · decide

/-- C9: when every transaction has a matching rule the without-rule partition
is empty, the suggestion service is not invoked (zero calls) and the
suggestion dict is empty; in every case the service is invoked at most once
per `categorizar_transacoes` run. -/
theorem C9_single_batch_call (txs : List Transacao) (rules : List Rule)
    (cats : List CategoryTemplate) (subs : List SubcategoryTemplate)
    (svc : List Transacao → Except String ResultadoCategorizacaoBatch) :
    ((∀ t ∈ txs, temRegra rules (normalizar_texto t.descricao) = true) →
      (partitionTransacoes txs rules).2 = []
      ∧ (categorizar_transacoes txs rules cats subs svc).llmCalls = 0
      ∧ (categorizar_transacoes txs rules cats subs svc).categorizacoes_llm = [])
    ∧ ((partitionTransacoes txs rules).2 = [] →
        (categorizar_transacoes txs rules cats subs svc).llmCalls = 0
        ∧ (categorizar_transacoes txs rules cats subs svc).categorizacoes_llm = [])
    ∧ (categorizar_transacoes txs rules cats subs svc).llmCalls ≤ 1 := by
  have hempty : (partitionTransacoes txs rules).2 = [] →
      (categorizar_transacoes txs rules cats subs svc).llmCalls = 0
      ∧ (categorizar_transacoes txs rules cats subs svc).categorizacoes_llm = [] := by
    intro hemp
    have hout : llmCallOutcome (partitionTransacoes txs rules).2 svc = ([], 0) := by
      unfold llmCallOutcome
      rw [hemp]
      rfl
    constructor
    · show (llmCallOutcome (partitionTransacoes txs rules).2 svc).2 = 0
      rw [hout]
    · show (llmCallOutcome (partitionTransacoes txs rules).2 svc).1 = []
      rw [hout]
  refine ⟨?_, hempty, ?_⟩
  · intro hall
    have hemp : (partitionTransacoes txs rules).2 = [] := by
      rw [partitionTransacoes_eq]
      rw [List.filter_eq_nil_iff]
      intro p hp
      have hmem : p.2 ∈ txs := by
        have := List.mem_map_of_mem Prod.snd hp
        rwa [List.enum_map_snd] at this
      rw [hall p.2 hmem]
      simp
    exact ⟨hemp, (hempty hemp).1, (hempty hemp).2⟩
  · show (llmCallOutcome (partitionTransacoes txs rules).2 svc).2 ≤ 1
    unfold llmCallOutcome
    by_cases hemp : (partitionTransacoes txs rules).2.isEmpty
    · rw [if_pos hemp]
      exact Nat.zero_le 1
    · rw [if_neg hemp]
      cases svc ((partitionTransacoes txs rules).2.map Prod.snd) <;> exact Nat.le_refl 1

/-- C9 witness: with one transaction matched by the "uber" rule, the partition
leaves no transaction for the service, no call is made and the dict is empty. -/
theorem C9_single_batch_call_witness :
    (partitionTransacoes [uberTx] [exRuleShort]).2 = []
    ∧ (categorizar_transacoes [uberTx] [exRuleShort] exCats exSubs exSvc).llmCalls = 0
    ∧ (categorizar_transacoes [uberTx] [exRuleShort] exCats exSubs exSvc).categorizacoes_llm
      = [] := by
  have h := (C9_single_batch_call [uberTx] [exRuleShort] exCats exSubs exSvc).1
  exact h (by decide)

/-- C10: both endpoints call `categorizar_transacoes` without the required
`openai_api_key` parameter (main.py lines 67-72 and 135-140), so whenever text
extraction passes the 50-character check and structured extraction succeeds,
the call raises a missing-argument TypeError and the blanket handler converts
the request into a generic 500; neither endpoint can return categorized
transactions on this path. -/
theorem C10_endpoints_missing_api_key (texto : String) (r : ResultadoFatura)
    (run : Unit → List TransacaoCategorizada) (h : ¬ texto.length < 50) :
    extrair_transacoes_handler texto (Except.ok r) run
      = EndpointResult.erro 500
          "Erro no processamento: categorizar_transacoes() missing required arguments: openai_api_key"
    ∧ extrair_transacoes_base64_handler true true texto (Except.ok r) run
      = EndpointResult.erro 500
          "Erro no processamento: categorizar_transacoes() missing required arguments: openai_api_key"
    ∧ (∀ ts, extrair_transacoes_handler texto (Except.ok r) run ≠ EndpointResult.ok ts)
    ∧ (∀ ts, extrair_transacoes_base64_handler true true texto (Except.ok r) run
        ≠ EndpointResult.ok ts) := by
  have hcall : call_categorizar_transacoes chamada_extrair_kwargs run
      = Except.error
          "categorizar_transacoes() missing required arguments: openai_api_key" := by
    unfold call_categorizar_transacoes
    rw [if_neg (by decide : ¬ missing_args chamada_extrair_kwargs = [])]
    rfl
  have hcall64 : call_categorizar_transacoes chamada_extrair_base64_kwargs run
      = Except.error
          "categorizar_transacoes() missing required arguments: openai_api_key" := by
    unfold call_categorizar_transacoes
    rw [if_neg (by decide : ¬ missing_args chamada_extrair_base64_kwargs = [])]
    rfl
  have h1 : extrair_transacoes_handler texto (Except.ok r) run
      = EndpointResult.erro 500
          "Erro no processamento: categorizar_transacoes() missing required arguments: openai_api_key" := by
    unfold extrair_transacoes_handler
    rw [if_neg h]
    show (match call_categorizar_transacoes chamada_extrair_kwargs run with
      | Except.ok ts => EndpointResult.ok ts
      | Except.error e => EndpointResult.erro 500 ("Erro no processamento: " ++ e)) = _
    rw [hcall]
    rfl
  have h2 : extrair_transacoes_base64_handler true true texto (Except.ok r) run
      = EndpointResult.erro 500
          "Erro no processamento: categorizar_transacoes() missing required arguments: openai_api_key" := by
    unfold extrair_transacoes_base64_handler
    rw [if_neg h]
    show (match call_categorizar_transacoes chamada_extrair_base64_kwargs run with
      | Except.ok ts => EndpointResult.ok ts
      | Except.error e => EndpointResult.erro 500 ("Erro no processamento: " ++ e)) = _
    rw [hcall64]
    rfl
  refine ⟨h1, h2, ?_, ?_⟩
  · intro ts
    rw [h1]
    intro hts
    exact EndpointResult.noConfusion hts
  · intro ts
    rw [h2]
    intro hts
    exact EndpointResult.noConfusion hts

/-- C10 witness: with a 50-character text and a successful extraction, both
endpoints answer the generic 500. -/
theorem C10_endpoints_missing_api_key_witness :
    extrair_transacoes_handler exTexto (Except.ok exFatura) (fun _ => [])
      = EndpointResult.erro 500
          "Erro no processamento: categorizar_transacoes() missing required arguments: openai_api_key"
    ∧ extrair_transacoes_base64_handler true true exTexto (Except.ok exFatura) (fun _ => [])
      = EndpointResult.erro 500
          "Erro no processamento: categorizar_transacoes() missing required arguments: openai_api_key" :=
  ⟨(C10_endpoints_missing_api_key exTexto exFatura (fun _ => []) (by decide)).1,
   (C10_endpoints_missing_api_key exTexto exFatura (fun _ => []) (by decide)).2.1⟩

/-- C1 counterexample: one transaction, no rules, a suggestion that resolves
the category "Alimentação" and no subcategory; the emitted transaction has
category_id "c-ali" but subcategory_id "s-sem", whose catalog entry belongs to
"c-out" — the engine emits a subcategory whose category differs from the
resolved category, contradicting the claim (the default subcategory leaked
into an unrelated category, where the spec scenario demands a null
subcategory). -/
theorem C1_subcategory_invariant_counterexample :
    (categorizar_transacoes exTxs [] exCats exSubs exSvc).resultado
      = [{ date := "2024-01-01", description := "ifood", amount := 30,
           category_name := some "Alimentação", category_id := some "c-ali",
           subcategory_name := some "sem categoria", subcategory_id := some "s-sem" }]
    ∧ dget (subcategory_by_id exSubs) "s-sem"
      = some { id := "s-sem", name := "sem categoria", category_template_id := some "c-out" }
    ∧ (some "c-out" : Option String) ≠ some "c-ali" := by
  refine ⟨by decide, by decide, by decide⟩

/-- C1 amended: for a transaction without a matching rule, a subcategory
resolved from the suggestion always belongs to the resolved category; but
when the suggestion step leaves the subcategory unset and a default
subcategory exists, the default subcategory is applied even though the
resolved category may differ from the default category, so the emitted
subcategory may belong to a different category than the emitted category. -/
theorem C1_amended_subcategory_membership (cats : List CategoryTemplate)
    (subs : List SubcategoryTemplate) (t : Transacao) (i : Nat) (rules : List Rule)
    (cbi : List (String × CategoryTemplate)) (sbi : List (String × SubcategoryTemplate))
    (sbn : List (String × SubcategoryTemplate)) (llm : List (Nat × CategorizacaoLLM))
    (h1 : temRegra rules (normalizar_texto t.descricao) = false) :
    (∀ sid, (suggestionFields i llm (category_by_name cats) subs).subcategory_id
        = some sid →
      ∃ cid m, (suggestionFields i llm (category_by_name cats) subs).category_id
          = some cid
        ∧ m ∈ subs ∧ m.id = sid ∧ m.category_template_id = some cid)
    ∧ (∀ ds, (suggestionFields i llm (category_by_name cats) subs).subcategory_id = none →
        default_subcategory cats subs = some ds →
        (categorizar_transacao_individual t i rules cbi sbi (category_by_name cats) sbn
            (default_category cats) (default_subcategory cats subs) llm subs).subcategory_id
          = some ds.id) := by
  constructor
  · intro sid hsid
    obtain ⟨sg, cn, cat, m, sn, _, _, _, _, _, _, hm, hid, hct, _, hcid, _⟩ :=
      suggestionFields_sub_spec i llm (category_by_name cats) subs sid hsid
    exact ⟨cat.id, m, hcid, hm, hid, hct⟩
  · intro ds hnone h3
    have h2 : truthyO (suggestionFields i llm (category_by_name cats) subs).subcategory_id
        = false := by
      rw [hnone]
      rfl
    exact (individual_default_sub_applied cats subs t i rules cbi sbi sbn llm ds
      h1 h2 h3).1

/-- C1 amended witness: in the counterexample scenario the suggestion step
resolves no subcategory and the default subcategory "s-sem" is applied under
the category "Alimentação". -/
theorem C1_amended_subcategory_membership_witness :
    (categorizar_transacao_individual
        { data := "2024-01-01", descricao := "ifood", valor := 30, moeda := "BRL" }
        0 [] (category_by_id exCats) (subcategory_by_id exSubs) (category_by_name exCats)
        (subcategory_by_name exSubs) (default_category exCats)
        (default_subcategory exCats exSubs) exLlmDict exSubs).subcategory_id
      = some "s-sem" :=
  (C1_amended_subcategory_membership exCats exSubs
    { data := "2024-01-01", descricao := "ifood", valor := 30, moeda := "BRL" }
    0 [] (category_by_id exCats) (subcategory_by_id exSubs) (subcategory_by_name exSubs)
    exLlmDict (by decide)).2
    { id := "s-sem", name := "sem categoria", category_template_id := some "c-out" }
    (by decide) (by decide)

end AInvestor
